import Mathlib

/-!
Verification of the agri-nova scoring pipeline.

This file gives a shallow embedding of the two API route handlers of the
repository — the simulation route (POST, in `src/unnamed/part_000`) and the
environmental-data route (GET, in `src/src/app/api/nasaData/route.ts`) —
and proves or refutes the frozen claims about them.

Modelling conventions:
- JavaScript numbers are modelled as exact rationals (ℚ); every operation the
  code performs on them (+, -, *, /, comparisons, Math.min/max/abs/round) is
  exact rational arithmetic here.
- Math.round follows the ECMAScript  definition: round half toward
  positive infinity, i.e. round x = floor (x + 1/2).
- The JavaScript truthiness operator  x || d  on a number is d when x is 0
  (0 is falsy) and x otherwise; on a possibly-absent value (undefined) it is
  d when the value is absent; on a string it is d when the string is empty.
  These are `jsOr`, `jsOrNum` and `jsOrStr` below.
- An environmental bundle (the JSON produced by the nasaData route) is
  modelled as a record of the fields the simulation actually reads; the
  nasaData generator always emits all of them.
-/

/-- JavaScript  x || d  for a number x that is present: falls back to d
exactly when x is 0 (the only falsy rational). -/
def jsOr (x d : ℚ) : ℚ := if x = 0 then d else x

/-- JavaScript  x || d  for a possibly-undefined number (e.g. a failed object
lookup): falls back to d when absent or 0. -/
def jsOrNum (x : Option ℚ) (d : ℚ) : ℚ :=
  match x with
  | none => d
  | some v => if v = 0 then d else v

/-- JavaScript  s || d  for a possibly-undefined string: falls back to d when
absent or empty. -/
def jsOrStr (s : Option String) (d : String) : String :=
  match s with
  | none => d
  | some v => if v = "" then d else v

/-- Math.round in ECMAScript: round half toward positive infinity. -/
def jsRoundQ (x : ℚ) : ℚ := ((⌊x + 1/2⌋ : ℤ) : ℚ)

/-- The fields of the nasaData JSON bundle that the simulation reads
(power.temperature2m, power.precipitation, smap.soilMoistureSurface,
smap.soilMoistureRootZone, modis.ndvi, drought.droughtCategory),
flattened into one record. -/
structure NasaBundle where
  temperature2m : ℚ
  precipitation : ℚ
  soilMoistureSurface : ℚ
  soilMoistureRootZone : ℚ
  ndvi : ℚ
  droughtCategory : String
deriving DecidableEq

/-- The PlayerChoices request-body type of the simulation route: the three
numeric fields are required, the three string fields are optional. -/
structure PlayerChoices where
  irrigationMmPerDay : ℚ
  fertilizerKgPerHa : ℚ
  livestockDensityPerHa : ℚ
  cropType : Option String
  soilType : Option String
  farmingMethod : Option String
deriving DecidableEq

structure Recommendation where
  category : String
  priority : String
  action : String
  impact : String
  implementation : String
deriving DecidableEq

structure ComparisonData where
  baseline : ℚ
  current : ℚ
  improvement : ℚ
  benchmark : String
deriving DecidableEq

structure LivestockAnalysis where
  soilCompaction : ℚ
  nutrientCycling : ℚ
  waterConsumption : ℚ
  greenhouseGasEmissions : ℚ
  benefits : List String
  concerns : List String
deriving DecidableEq

structure IrrigationAnalysis where
  efficiency : ℚ
  waterStress : String
  optimalTiming : String
  recommendedMethod : String
  waterSavings : ℚ
deriving DecidableEq

structure SoilHealthMetrics where
  organicMatter : ℚ
  pH : ℚ
  nutrientLevel : String
  moistureRetention : ℚ
  compactionRisk : String
deriving DecidableEq

structure SimulationResult where
  yieldScore : ℚ
  sustainabilityScore : ℚ
  soilHealthScore : ℚ
  waterEfficiencyScore : ℚ
  carbonFootprint : ℚ
  economicViability : ℚ
  insights : List String
  recommendations : List Recommendation
  comparison : ComparisonData
  livestockImpact : LivestockAnalysis
  irrigationAnalysis : IrrigationAnalysis
  soilHealthMetrics : SoilHealthMetrics
deriving DecidableEq

/-- The scores object passed (unrounded) to the insight and recommendation
generators. -/
structure ScoreSet where
  yieldScore : ℚ
  sustainabilityScore : ℚ
  soilHealthScore : ℚ
  waterEfficiencyScore : ℚ
deriving DecidableEq

/-- The cropMultipliers lookup table of calculateBaseYield; an unknown key is
an absent (undefined) lookup. -/
def cropMultipliers (cropType : String) : Option ℚ :=
  if cropType = "Corn" then some 100
  else if cropType = "Wheat" then some 80
  else if cropType = "Soybeans" then some 90
  else if cropType = "Rice" then some 85
  else none

/-- The soilMultipliers lookup table of calculateBaseYield. -/
def soilMultipliers (soilType : String) : Option ℚ :=
  if soilType = "Loam" then some 1
  else if soilType = "Clay" then some 0.8
  else if soilType = "Sand" then some 0.7
  else if soilType = "Silt" then some 0.9
  else none

/-- calculateBaseYield from the simulation route: crop multiplier (default
100) times soil factor (default 1.0) times a weather factor (0.9 above 25°C,
else 1.1). -/
def calculateBaseYield (cropType soilType : String) (nasaData : NasaBundle) : ℚ :=
  let baseYield := jsOrNum (cropMultipliers cropType) 100
  let soilFactor := jsOrNum (soilMultipliers soilType) 1
  let weatherFactor : ℚ := if nasaData.temperature2m > 25 then 0.9 else 1.1
  baseYield * soilFactor * weatherFactor

structure IrrigationImpact where
  yieldBoost : ℚ
  waterEfficiency : ℚ
deriving DecidableEq

/-- calculateIrrigationImpact from the simulation route. Note the JavaScript
fallback on the soil-moisture read:  soilMoistureRootZone || 0.3 . -/
def calculateIrrigationImpact (irrigationMm : ℚ) (nasaData : NasaBundle) : IrrigationImpact :=
  let nasaSoilMoisture := jsOr nasaData.soilMoistureRootZone 0.3
  let yieldBoost : ℚ :=
    if irrigationMm > 0 then
      let efficiency : ℚ := if nasaSoilMoisture > 0.25 then 0.8 else 0.6
      min (irrigationMm * 2 * efficiency) 20
    else 0
  let waterEfficiency : ℚ :=
    if irrigationMm > 5 then max 0.5 (1 - (irrigationMm - 5) * 0.1) else 1
  ⟨yieldBoost, waterEfficiency⟩

structure FertilizerImpact where
  yieldBoost : ℚ
  soilImpact : ℚ
deriving DecidableEq

/-- The soilNutrientRetention lookup table of calculateFertilizerImpact. -/
def soilNutrientRetention (soilType : String) : Option ℚ :=
  if soilType = "Loam" then some 0.8
  else if soilType = "Clay" then some 0.9
  else if soilType = "Sand" then some 0.5
  else if soilType = "Silt" then some 0.7
  else none

/-- calculateFertilizerImpact from the simulation route. -/
def calculateFertilizerImpact (fertilizerKg : ℚ) (soilType : String) : FertilizerImpact :=
  let retention := jsOrNum (soilNutrientRetention soilType) 0.8
  let yieldBoost := min (fertilizerKg * 0.5 * retention) 15
  let soilImpact : ℚ := if fertilizerKg > 20 then -5 else if fertilizerKg > 10 then -2 else 0
  ⟨yieldBoost, soilImpact⟩

structure LivestockImpactCalc where
  yieldReduction : ℚ
  soilCompaction : ℚ
deriving DecidableEq

/-- calculateLivestockImpact from the simulation route. -/
def calculateLivestockImpact (density : ℚ) : LivestockImpactCalc :=
  ⟨density * 0.5, density * 2⟩

/-- calculateSustainabilityScore from the simulation route: start at 100,
deduct for irrigation, fertilizer and livestock thresholds, add NASA-data
bonuses, clamp to [0, 100]. -/
def calculateSustainabilityScore (choices : PlayerChoices) (nasaData : NasaBundle) : ℚ :=
  let score : ℚ := 100
  let score := if choices.irrigationMmPerDay > 8 then score - 15
    else if choices.irrigationMmPerDay > 5 then score - 8 else score
  let score := if choices.fertilizerKgPerHa > 30 then score - 20
    else if choices.fertilizerKgPerHa > 20 then score - 10 else score
  let score := if choices.livestockDensityPerHa > 5 then score - 10
    else if choices.livestockDensityPerHa > 3 then score - 5 else score
  let score := if nasaData.ndvi > 0.7 then score + 5 else score
  let score := if nasaData.soilMoistureRootZone > 0.3 then score + 3 else score
  max 0 (min 100 score)

/-- calculateSoilHealthScore from the simulation route: start at 80, adjust
for fertilizer extremes, livestock density, over-irrigation and the NASA
soil-moisture read (with its  || 0.3  fallback), clamp to [0, 100]. -/
def calculateSoilHealthScore (choices : PlayerChoices) (nasaData : NasaBundle) : ℚ :=
  let score : ℚ := 80
  let score := if choices.fertilizerKgPerHa > 25 then score - 10
    else if choices.fertilizerKgPerHa < 5 then score - 5 else score
  let score := score - choices.livestockDensityPerHa * 2
  let score := if choices.irrigationMmPerDay > 10 then score - 8 else score
  let soilMoisture := jsOr nasaData.soilMoistureRootZone 0.3
  let score := if soilMoisture > 0.3 then score + 5
    else if soilMoisture < 0.2 then score - 10 else score
  max 0 (min 100 score)

/-- calculateWaterEfficiencyScore from the simulation route: start at 100,
penalize outside the 3–7 mm optimal band, bonus 10 when irrigation is within
2 of the daily precipitation equivalent, clamp to [0, 100]. -/
def calculateWaterEfficiencyScore (irrigationMm : ℚ) (nasaData : NasaBundle) : ℚ :=
  let nasaPrecipitation := jsOr nasaData.precipitation 15
  let score : ℚ := 100
  let score := if irrigationMm < 3 then score - (3 - irrigationMm) * 5
    else if irrigationMm > 7 then score - (irrigationMm - 7) * 8 else score
  let precipitationMatch := |irrigationMm - nasaPrecipitation / 30|
  let score := if precipitationMatch < 2 then score + 10 else score
  max 0 (min 100 score)

/-- calculateCarbonFootprint from the simulation route. -/
def calculateCarbonFootprint (choices : PlayerChoices) : ℚ :=
  let footprint : ℚ := 50
  let footprint := footprint + choices.fertilizerKgPerHa * 2
  let footprint := footprint + choices.irrigationMmPerDay * 365 * 0.1
  let footprint := footprint + choices.livestockDensityPerHa * 15
  jsRoundQ footprint

/-- calculateEconomicViability from the simulation route (takes the unrounded
yield score). -/
def calculateEconomicViability (choices : PlayerChoices) (yieldScore : ℚ) : ℚ :=
  let revenue := yieldScore * 0.5
  let costs := choices.fertilizerKgPerHa * 0.8 + choices.irrigationMmPerDay * 365 * 0.05
    + choices.livestockDensityPerHa * 20
  jsRoundQ (max 0 (revenue - costs))

/-- generateComprehensiveInsights from the simulation route: conditionally
pushed insight strings, in source order (irrigation, fertilizer, livestock,
drought, vegetation). The scores argument is received but never read, as in
the source. -/
def generateComprehensiveInsights (choices : PlayerChoices) (nasaData : NasaBundle)
    (scores : ScoreSet) : List String :=
  (if choices.irrigationMmPerDay > 8 then
      ["High irrigation levels detected - consider water conservation strategies"]
    else if choices.irrigationMmPerDay < 3 then
      ["Low irrigation may limit crop growth - monitor soil moisture closely"]
    else [])
  ++ (if choices.fertilizerKgPerHa > 25 then
      ["High fertilizer use may cause nutrient runoff and soil degradation"]
    else if choices.fertilizerKgPerHa < 10 then
      ["Consider soil testing to optimize fertilizer application"]
    else [])
  ++ (if choices.livestockDensityPerHa > 4 then
      ["High livestock density increases soil compaction risk"]
    else if choices.livestockDensityPerHa > 0 then
      ["Livestock can provide natural fertilizer through manure"]
    else [])
  ++ (if nasaData.droughtCategory ≠ "None" then
      ["Drought conditions detected (" ++ nasaData.droughtCategory
        ++ ") - prioritize water conservation"]
    else [])
  ++ (if nasaData.ndvi > 0.7 then
      ["Excellent vegetation health detected - current practices are effective"]
    else [])

/-- generateDetailedRecommendations from the simulation route: one record per
satisfied threshold, in source order (water, nutrient, livestock). The
nasaData argument is received but never read, as in the source. -/
def generateDetailedRecommendations (choices : PlayerChoices) (nasaData : NasaBundle)
    (scores : ScoreSet) : List Recommendation :=
  (if scores.waterEfficiencyScore < 70 then
      [{ category := "Water Management", priority := "High",
         action := "Optimize irrigation schedule",
         impact := "Improve water efficiency by 15-20%",
         implementation := "Use soil moisture sensors and irrigate during early morning" }]
    else [])
  ++ (if choices.fertilizerKgPerHa > 20 then
      [{ category := "Nutrient Management", priority := "Medium",
         action := "Reduce fertilizer application",
         impact := "Lower costs and reduce environmental impact",
         implementation := "Conduct soil test and apply fertilizer based on crop needs" }]
    else [])
  ++ (if choices.livestockDensityPerHa > 3 then
      [{ category := "Livestock Management", priority := "Medium",
         action := "Implement rotational grazing",
         impact := "Reduce soil compaction and improve pasture health",
         implementation := "Rotate livestock every 7-14 days to allow pasture recovery" }]
    else [])

/-- generateComparisonData from the simulation route (takes the unrounded
yield score). -/
def generateComparisonData (choices : PlayerChoices) (yieldScore : ℚ) : ComparisonData :=
  let baselineYield : ℚ := 100
  let improvement := (yieldScore - baselineYield) / baselineYield * 100
  { baseline := baselineYield
    current := yieldScore
    improvement := jsRoundQ improvement
    benchmark := if improvement > 10 then "Above Average"
      else if improvement > 0 then "Average" else "Below Average" }

/-- analyzeLivestockEffects from the simulation route. -/
def analyzeLivestockEffects (density : ℚ) : LivestockAnalysis :=
  { soilCompaction := density * 15
    nutrientCycling := density * 8
    waterConsumption := density * 50
    greenhouseGasEmissions := density * 12
    benefits := if density > 0 then
        ["Natural fertilizer through manure",
         "Increased soil organic matter",
         "Diversified income streams"]
      else []
    concerns := if density > 3 then
        ["Increased soil compaction",
         "Higher water consumption",
         "Potential overgrazing"]
      else [] }

/-- analyzeIrrigationEffects from the simulation route (reads the surface
soil moisture, with its  || 0.3  fallback). -/
def analyzeIrrigationEffects (irrigationMm : ℚ) (nasaData : NasaBundle) : IrrigationAnalysis :=
  let nasaSoilMoisture := jsOr nasaData.soilMoistureSurface 0.3
  { efficiency := if nasaSoilMoisture > 0.25 then 85 else 70
    waterStress := if irrigationMm > 8 then "High"
      else if irrigationMm > 5 then "Moderate" else "Low"
    optimalTiming := "Early morning (6-8 AM)"
    recommendedMethod := if irrigationMm > 6 then "Drip Irrigation" else "Sprinkler System"
    waterSavings := if irrigationMm > 7 then 20 else 0 }

/-- analyzeSoilHealth from the simulation route. -/
def analyzeSoilHealth (choices : PlayerChoices) (nasaData : NasaBundle) : SoilHealthMetrics :=
  let nasaSoilMoisture := jsOr nasaData.soilMoistureRootZone 0.3
  { organicMatter := 2.5 + choices.livestockDensityPerHa * 0.3 - choices.fertilizerKgPerHa * 0.02
    pH := 6.5 + choices.fertilizerKgPerHa * 0.01
    nutrientLevel := if choices.fertilizerKgPerHa > 20 then "High"
      else if choices.fertilizerKgPerHa > 10 then "Moderate" else "Low"
    moistureRetention := nasaSoilMoisture * 100
    compactionRisk := if choices.livestockDensityPerHa > 4 then "High"
      else if choices.livestockDensityPerHa > 2 then "Moderate" else "Low" }

/-- runComprehensiveSimulation from the simulation route: combines the
component calculations, rounds the six scores in the returned record, and
passes the unrounded scores to the generators. -/
def runComprehensiveSimulation (choices : PlayerChoices) (nasaData : NasaBundle) :
    SimulationResult :=
  let baseYield := calculateBaseYield (jsOrStr choices.cropType "Corn")
    (jsOrStr choices.soilType "Loam") nasaData
  let irrigationImpact := calculateIrrigationImpact choices.irrigationMmPerDay nasaData
  let fertilizerImpact := calculateFertilizerImpact choices.fertilizerKgPerHa
    (jsOrStr choices.soilType "Loam")
  let livestockImpact := calculateLivestockImpact choices.livestockDensityPerHa
  let yieldScore := max 0 (baseYield + irrigationImpact.yieldBoost
    + fertilizerImpact.yieldBoost - livestockImpact.yieldReduction)
  let sustainabilityScore := calculateSustainabilityScore choices nasaData
  let soilHealthScore := calculateSoilHealthScore choices nasaData
  let waterEfficiencyScore := calculateWaterEfficiencyScore choices.irrigationMmPerDay nasaData
  let carbonFootprint := calculateCarbonFootprint choices
  let economicViability := calculateEconomicViability choices yieldScore
  let scores : ScoreSet := ⟨yieldScore, sustainabilityScore, soilHealthScore,
    waterEfficiencyScore⟩
  { yieldScore := jsRoundQ yieldScore
    sustainabilityScore := jsRoundQ sustainabilityScore
    soilHealthScore := jsRoundQ soilHealthScore
    waterEfficiencyScore := jsRoundQ waterEfficiencyScore
    carbonFootprint := jsRoundQ carbonFootprint
    economicViability := jsRoundQ economicViability
    insights := generateComprehensiveInsights choices nasaData scores
    recommendations := generateDetailedRecommendations choices nasaData scores
    comparison := generateComparisonData choices yieldScore
    livestockImpact := analyzeLivestockEffects choices.livestockDensityPerHa
    irrigationAnalysis := analyzeIrrigationEffects choices.irrigationMmPerDay nasaData
    soilHealthMetrics := analyzeSoilHealth choices nasaData }

/-- JavaScript falsiness of a searchParams.get result (string | null): falsy
exactly when absent (null) or the empty string. -/
def jsFalsyParam (s : Option String) : Prop :=
  s = none ∨ s = some ""

instance (s : Option String) : Decidable (jsFalsyParam s) := by
  unfold jsFalsyParam; infer_instance

/-- Response of the GET environmental-data route. A 200 response carries the
raw lat and lon parameters echoed into the payload's location field; the
pseudo-random bundle body is abstracted (the generator is pure arithmetic on
the random draws and cannot throw, so the route's catch branch is dead and
no 500 is reachable). A 400 response carries its error-field string. -/
inductive GetResponse
  | ok (lat lon : Option String)
  | badRequest (error : String)
deriving DecidableEq

/-- The GET handler of src/src/app/api/nasaData/route.ts: the only guard is
JavaScript falsiness of the two raw query-parameter strings; no numeric
parsing or finiteness check happens before the bundle is generated. -/
def GET (lat lon : Option String) : GetResponse :=
  if jsFalsyParam lat ∨ jsFalsyParam lon then
    GetResponse.badRequest "Missing required query params: lat, lon"
  else
    GetResponse.ok lat lon

/-- A parsed JSON request body for the simulation route: either the JSON
literal null (parsed to a falsy value) or an object of player choices. An
absent optional property is `none`. -/
inductive JsonBody
  | jnull
  | jobject (choices : PlayerChoices)
deriving DecidableEq

/-- Models request.json(): per the Fetch specification it rejects (throws a
SyntaxError) when the request has no body to parse, and resolves to the
parsed value otherwise. -/
def requestJson (body : Option JsonBody) : Except String JsonBody :=
  match body with
  | none => Except.error "Unexpected end of JSON input"
  | some b => Except.ok b

/-- Response of the POST simulation route. `unhandledException` is a rejected
promise escaping the handler (the framework turns it into a generic 500 whose
payload is not the handler's own error JSON). -/
inductive PostResponse
  | ok (result : SimulationResult)
  | badRequest (error : String)
  | internalError (error : String) (details : String)
  | unhandledException (message : String)
deriving DecidableEq

/-- The POST handler of the simulation route (src/unnamed/part_000). The
await of request.json() happens before the try block, so a parse failure
(missing body) escapes as an unhandled exception; the body-falsiness guard
only fires on a parsed falsy value such as JSON null. The internal fetch of
the nasaData route is an external effect, passed in as `nasaFetch`; a fetch
failure is caught and mapped to the 500 response. -/
def POST (body : Option JsonBody) (nasaFetch : Except String NasaBundle) : PostResponse :=
  match requestJson body with
  | Except.error e => PostResponse.unhandledException e
  | Except.ok JsonBody.jnull => PostResponse.badRequest "Missing request body"
  | Except.ok (JsonBody.jobject choices) =>
    match nasaFetch with
    | Except.error e => PostResponse.internalError "Simulation failed" e
    | Except.ok nasaData =>
      PostResponse.ok (runComprehensiveSimulation
        { choices with
          cropType := some (choices.cropType.getD "Corn")
          soilType := some (choices.soilType.getD "Loam")
          farmingMethod := some (choices.farmingMethod.getD "Conventional") }
        nasaData)

/-- The fixed environmental bundle of the spec's reproducibility property:
temperature 20, precipitation 15, soil moisture 0.3 at both depths,
ndvi 0.65, no drought. -/
def bundle0 : NasaBundle :=
  { temperature2m := 20
    precipitation := 15
    soilMoistureSurface := 0.3
    soilMoistureRootZone := 0.3
    ndvi := 0.65
    droughtCategory := "None" }

/-- A bundle whose root-zone soil moisture reading is 0 (a falsy number in
JavaScript, so the  || 0.3  fallbacks replace it by 0.3). -/
def bundleZeroMoisture : NasaBundle :=
  { temperature2m := 22
    precipitation := 10
    soilMoistureSurface := 0
    soilMoistureRootZone := 0
    ndvi := 0.5
    droughtCategory := "None" }

/-- The player choices of the spec's reproducibility property (livestock 0 to
exhibit the unclamped yield). -/
def choicesHighYield : PlayerChoices :=
  { irrigationMmPerDay := 5
    fertilizerKgPerHa := 15
    livestockDensityPerHa := 0
    cropType := some "Corn"
    soilType := some "Loam"
    farmingMethod := some "Conventional" }

/-- A generic concrete choice record used by witnesses. -/
def choicesMid : PlayerChoices :=
  { irrigationMmPerDay := 6
    fertilizerKgPerHa := 22
    livestockDensityPerHa := 4
    cropType := some "Wheat"
    soilType := some "Clay"
    farmingMethod := some "Organic" }

/-!
Prototype-chain-aware model of the lookup tables. The source's tables are
plain object literals, and a JavaScript property read consults the prototype
chain: for keys inherited from Object.prototype (toString, constructor,
valueOf, ...) the read returns a truthy function or object, so the
  lookup || default
fallback does not fire — the multiplier becomes a function and the arithmetic
on it produces NaN. The Option-valued tables above are therefore faithful
only for keys that are not Object.prototype member names; the definitions
below model the full behaviour.
-/

/-- The string keys every plain object literal inherits from
Object.prototype in ECMAScript; each is bound to a truthy function (or, for
the __proto__ accessor, a truthy object). -/
def objectPrototypeKeys : List String :=
  ["constructor", "hasOwnProperty", "isPrototypeOf", "propertyIsEnumerable",
   "toLocaleString", "toString", "valueOf", "__proto__", "__defineGetter__",
   "__defineSetter__", "__lookupGetter__", "__lookupSetter__"]

/-- Result of a JavaScript property read on one of the lookup-table object
literals: an own numeric entry, a truthy function or object inherited from
Object.prototype, or undefined. -/
inductive JsProp
  | own (v : ℚ)
  | inherited
  | undef
deriving DecidableEq

/-- A JavaScript number that may be NaN. -/
inductive JsNum
  | nan
  | val (q : ℚ)
deriving DecidableEq

/-- A JavaScript value produced by  lookup || default : either a number, or a
truthy inherited function that survived the || operator. -/
inductive JsValue
  | num (q : ℚ)
  | fn
deriving DecidableEq

/-- A property read on an object literal whose own entries are given by
`table`: an own entry wins, otherwise an Object.prototype member name hits
the inherited truthy value, otherwise the read is undefined. -/
def protoLookup (table : Option ℚ) (key : String) : JsProp :=
  match table with
  | some v => JsProp.own v
  | none => if key ∈ objectPrototypeKeys then JsProp.inherited else JsProp.undef

/-- Prototype-aware read of the cropMultipliers object literal. -/
def cropMultipliersJs (cropType : String) : JsProp :=
  protoLookup (cropMultipliers cropType) cropType

/-- Prototype-aware read of the soilMultipliers object literal. -/
def soilMultipliersJs (soilType : String) : JsProp :=
  protoLookup (soilMultipliers soilType) soilType

/-- Prototype-aware read of the soilNutrientRetention object literal. -/
def soilNutrientRetentionJs (soilType : String) : JsProp :=
  protoLookup (soilNutrientRetention soilType) soilType

/-- JavaScript  p || d  on a property-read result: an inherited function is
truthy and survives the ||; an own 0 or an undefined read falls back to d. -/
def jsOrProp (p : JsProp) (d : ℚ) : JsValue :=
  match p with
  | JsProp.own v => if v = 0 then JsValue.num d else JsValue.num v
  | JsProp.inherited => JsValue.fn
  | JsProp.undef => JsValue.num d

/-- ToNumber coercion applied by the arithmetic operators: a function
coerces to NaN. -/
def JsValue.toNum : JsValue → JsNum
  | JsValue.num q => JsNum.val q
  | JsValue.fn => JsNum.nan

/-- NaN-propagating JavaScript multiplication. -/
def JsNum.mul : JsNum → JsNum → JsNum
  | JsNum.val a, JsNum.val b => JsNum.val (a * b)
  | _, _ => JsNum.nan

/-- calculateBaseYield re-embedded with the prototype-chain-aware lookups
and NaN-propagating arithmetic; identical to the source line for line. -/
def calculateBaseYieldJs (cropType soilType : String) (nasaData : NasaBundle) : JsNum :=
  let baseYield := jsOrProp (cropMultipliersJs cropType) 100
  let soilFactor := jsOrProp (soilMultipliersJs soilType) 1
  let weatherFactor : ℚ := if nasaData.temperature2m > 25 then 0.9 else 1.1
  JsNum.mul (JsNum.mul baseYield.toNum soilFactor.toNum) (JsNum.val weatherFactor)

/-! Helper lemmas about the clamp and rounding operations. -/

lemma clamp_nonneg (s : ℚ) : 0 ≤ max 0 (min 100 s) := le_max_left 0 _

lemma clamp_le_100 (s : ℚ) : max 0 (min 100 s) ≤ 100 :=
  max_le (by norm_num) (min_le_left 100 s)

lemma clamp_le_clamp {a b : ℚ} (h : a ≤ b) :
    max 0 (min 100 a) ≤ max 0 (min 100 b) :=
  max_le_max le_rfl (min_le_min le_rfl h)

lemma jsRoundQ_nonneg {x : ℚ} (h : 0 ≤ x) : 0 ≤ jsRoundQ x := by
  unfold jsRoundQ
  have h1 : (0 : ℤ) ≤ ⌊x + 1/2⌋ := Int.le_floor.mpr (by push_cast; linarith)
  exact_mod_cast h1

lemma jsRoundQ_le_100 {x : ℚ} (h : x ≤ 100) : jsRoundQ x ≤ 100 := by
  unfold jsRoundQ
  have h1 : ⌊x + 1/2⌋ < (101 : ℤ) := Int.floor_lt.mpr (by push_cast; linarith)
  have h2 : ⌊x + 1/2⌋ ≤ (100 : ℤ) := by omega
  exact_mod_cast h2

/-- C4: for every FarmParameters input and environmental bundle, the
sustainability score equals 100 minus 15 if irrigation>8 (else minus 8 if
irrigation>5), minus 20 if fertilizer>30 (else minus 10 if fertilizer>20),
minus 10 if livestock>5 (else minus 5 if livestock>3), plus 5 if ndvi>0.7,
plus 3 if root-zone soil moisture>0.3, clamped to [0,100]. -/
theorem c4_sustainability_closed_form (choices : PlayerChoices) (nasaData : NasaBundle) :
    calculateSustainabilityScore choices nasaData =
      max 0 (min 100
        (100
          - (if choices.irrigationMmPerDay > 8 then 15
             else if choices.irrigationMmPerDay > 5 then 8 else 0)
          - (if choices.fertilizerKgPerHa > 30 then 20
             else if choices.fertilizerKgPerHa > 20 then 10 else 0)
          - (if choices.livestockDensityPerHa > 5 then 10
             else if choices.livestockDensityPerHa > 3 then 5 else 0)
          + (if nasaData.ndvi > 0.7 then 5 else 0)
          + (if nasaData.soilMoistureRootZone > 0.3 then 3 else 0))) := by
  unfold calculateSustainabilityScore
  split_ifs <;> norm_num

/-- C7: for every fertilizer amount above 25 and every fixing of the other
parameters and the environmental bundle, the soil health score at that
fertilizer amount is at most the soil health score at fertilizer 15. -/
theorem c7_soil_health_antitone_past_25 (f irr live : ℚ)
    (crop soil method : Option String) (n : NasaBundle) (h : 25 < f) :
    calculateSoilHealthScore ⟨irr, f, live, crop, soil, method⟩ n
      ≤ calculateSoilHealthScore ⟨irr, 15, live, crop, soil, method⟩ n := by
  simp only [calculateSoilHealthScore]
  split_ifs <;> (apply clamp_le_clamp; linarith)

/-- C7 witness: fertilizer 30 versus 15 at a concrete input. -/
theorem c7_soil_health_antitone_past_25_witness :
    (25 : ℚ) < 30
    ∧ calculateSoilHealthScore ⟨5, 30, 2, some "Corn", some "Loam", some "Conventional"⟩ bundle0
        ≤ calculateSoilHealthScore ⟨5, 15, 2, some "Corn", some "Loam", some "Conventional"⟩ bundle0 :=
  ⟨by norm_num,
   c7_soil_health_antitone_past_25 30 5 2 (some "Corn") (some "Loam") (some "Conventional")
     bundle0 (by norm_num)⟩

/-- C1 counterexample: with irrigation 5, fertilizer 15, livestock 0 on Corn
and Loam under the spec's fixed bundle, the returned yield score is 124,
above 100: the yield score is not clamped to [0, 100]. -/
theorem c1_yield_exceeds_100 :
    (runComprehensiveSimulation choicesHighYield bundle0).yieldScore = 124
    ∧ ¬ (runComprehensiveSimulation choicesHighYield bundle0).yieldScore ≤ 100 := by
  have e : (runComprehensiveSimulation choicesHighYield bundle0).yieldScore = 124 := by
    norm_num [runComprehensiveSimulation, calculateBaseYield, calculateIrrigationImpact,
      calculateFertilizerImpact, calculateLivestockImpact, cropMultipliers, soilMultipliers,
      soilNutrientRetention, jsOrNum, jsOrStr, jsOr, jsRoundQ, choicesHighYield, bundle0,
      min_def, max_def, Int.floor_eq_iff]
  exact ⟨e, by rw [e]; norm_num⟩

/-- C1 amended: for every valid FarmParameters input (irrigation, fertilizer,
livestock all nonnegative, crop and soil in their enums) and every
environmental bundle, the sustainability, soil-health and water-efficiency
scores lie in [0,100] and the yield score is nonnegative; the yield score is
not bounded above by 100. -/
theorem c1_amended_score_bounds (c : PlayerChoices) (n : NasaBundle)
    (hirr : 0 ≤ c.irrigationMmPerDay) (hfert : 0 ≤ c.fertilizerKgPerHa)
    (hlive : 0 ≤ c.livestockDensityPerHa)
    (hcrop : c.cropType ∈ [some "Corn", some "Wheat", some "Soybeans", some "Rice"])
    (hsoil : c.soilType ∈ [some "Loam", some "Clay", some "Sand", some "Silt"]) :
    0 ≤ (runComprehensiveSimulation c n).yieldScore
    ∧ (0 ≤ (runComprehensiveSimulation c n).sustainabilityScore
        ∧ (runComprehensiveSimulation c n).sustainabilityScore ≤ 100)
    ∧ (0 ≤ (runComprehensiveSimulation c n).soilHealthScore
        ∧ (runComprehensiveSimulation c n).soilHealthScore ≤ 100)
    ∧ (0 ≤ (runComprehensiveSimulation c n).waterEfficiencyScore
        ∧ (runComprehensiveSimulation c n).waterEfficiencyScore ≤ 100) := by
  have hsust : calculateSustainabilityScore c n = max 0 (min 100
      (let score : ℚ := 100
       let score := if c.irrigationMmPerDay > 8 then score - 15
         else if c.irrigationMmPerDay > 5 then score - 8 else score
       let score := if c.fertilizerKgPerHa > 30 then score - 20
         else if c.fertilizerKgPerHa > 20 then score - 10 else score
       let score := if c.livestockDensityPerHa > 5 then score - 10
         else if c.livestockDensityPerHa > 3 then score - 5 else score
       let score := if n.ndvi > 0.7 then score + 5 else score
       if n.soilMoistureRootZone > 0.3 then score + 3 else score)) := rfl
  refine ⟨?_, ⟨?_, ?_⟩, ⟨?_, ?_⟩, ⟨?_, ?_⟩⟩
  · exact jsRoundQ_nonneg (le_max_left 0 _)
  · exact jsRoundQ_nonneg (clamp_nonneg _)
  · exact jsRoundQ_le_100 (clamp_le_100 _)
  · exact jsRoundQ_nonneg (clamp_nonneg _)
  · exact jsRoundQ_le_100 (clamp_le_100 _)
  · exact jsRoundQ_nonneg (clamp_nonneg _)
  · exact jsRoundQ_le_100 (clamp_le_100 _)

/-- C1 witness: the amended bounds at a concrete valid input. -/
theorem c1_amended_score_bounds_witness :
    (0 ≤ choicesHighYield.irrigationMmPerDay
      ∧ 0 ≤ choicesHighYield.fertilizerKgPerHa
      ∧ 0 ≤ choicesHighYield.livestockDensityPerHa
      ∧ choicesHighYield.cropType ∈ [some "Corn", some "Wheat", some "Soybeans", some "Rice"]
      ∧ choicesHighYield.soilType ∈ [some "Loam", some "Clay", some "Sand", some "Silt"])
    ∧ (0 ≤ (runComprehensiveSimulation choicesHighYield bundle0).yieldScore
      ∧ (0 ≤ (runComprehensiveSimulation choicesHighYield bundle0).sustainabilityScore
          ∧ (runComprehensiveSimulation choicesHighYield bundle0).sustainabilityScore ≤ 100)
      ∧ (0 ≤ (runComprehensiveSimulation choicesHighYield bundle0).soilHealthScore
          ∧ (runComprehensiveSimulation choicesHighYield bundle0).soilHealthScore ≤ 100)
      ∧ (0 ≤ (runComprehensiveSimulation choicesHighYield bundle0).waterEfficiencyScore
          ∧ (runComprehensiveSimulation choicesHighYield bundle0).waterEfficiencyScore ≤ 100)) :=
  ⟨⟨by norm_num [choicesHighYield], by norm_num [choicesHighYield],
    by norm_num [choicesHighYield], by simp [choicesHighYield], by simp [choicesHighYield]⟩,
   c1_amended_score_bounds choicesHighYield bundle0
     (by norm_num [choicesHighYield]) (by norm_num [choicesHighYield])
     (by norm_num [choicesHighYield]) (by simp [choicesHighYield]) (by simp [choicesHighYield])⟩

/-- C2: evaluating the POST handler at a request with a missing JSON body.
Whatever the internal nasaData fetch would have returned, the handler ends in
an unhandled exception from request.json() (which rejects before the try
block and before the body-falsiness guard), not in the 400 response with the
error field that the guard would produce. -/
theorem c2_missing_body_is_unhandled (nasaFetch : Except String NasaBundle) :
    POST none nasaFetch = PostResponse.unhandledException "Unexpected end of JSON input"
    ∧ ∀ err : String, POST none nasaFetch ≠ PostResponse.badRequest err := by
  refine ⟨rfl, ?_⟩
  intro err h
  exact PostResponse.noConfusion h

/-- C9: whenever the lat or the lon query parameter is absent, the GET
environmental-data handler returns the 400 response whose JSON payload is the
error field, and no data bundle is produced. -/
theorem c9_missing_param_is_400 (lat lon : Option String) (h : lat = none ∨ lon = none) :
    GET lat lon = GetResponse.badRequest "Missing required query params: lat, lon" := by
  unfold GET
  rcases h with h | h <;> subst h <;> simp [jsFalsyParam]

/-- C9 witness: absent lat with a concrete lon. -/
theorem c9_missing_param_is_400_witness :
    GET none (some "45.2") = GetResponse.badRequest "Missing required query params: lat, lon" :=
  c9_missing_param_is_400 none (some "45.2") (Or.inl rfl)

/-- C3 counterexample: lat and lon present but non-numeric ("abc", "xyz",
which Number() turns into NaN) pass the only guard, so the handler returns
the 200 data bundle instead of signalling an InvalidInput failure. -/
theorem c3_non_numeric_coords_accepted :
    GET (some "abc") (some "xyz") = GetResponse.ok (some "abc") (some "xyz") := by
  simp [GET, jsFalsyParam]

/-- C3 amended: the GET environmental-data handler returns the 400 error
response exactly when lat or lon is absent or the empty string; any other
values, numeric or not, produce the data bundle — the handler never checks
that the coordinates are finite numbers. -/
theorem c3_amended_only_missing_rejected (lat lon : Option String) :
    GET lat lon = GetResponse.badRequest "Missing required query params: lat, lon"
      ↔ (lat = none ∨ lat = some "" ∨ lon = none ∨ lon = some "") := by
  unfold GET
  split_ifs with h
  · simp only [jsFalsyParam] at h
    constructor
    · intro _; tauto
    · intro _; rfl
  · simp only [jsFalsyParam] at h
    push_neg at h
    constructor
    · intro hcontra; exact absurd hcontra (by simp)
    · intro hdisj; tauto

/-- C5 counterexample: on a bundle whose root-zone soil moisture reading is
0, the source's  soilMoistureRootZone || 0.3  fallback replaces the reading
by 0.3, so efficiency is 0.8 although the bundle's moisture (0) is not above
0.25: at irrigation 1 the code yields boost 1.6, the claimed formula 1.2. -/
theorem c5_zero_moisture_breaks_formula :
    ¬ ((calculateIrrigationImpact 1 bundleZeroMoisture).yieldBoost
        = min (1 * 2 * (if bundleZeroMoisture.soilMoistureRootZone > 0.25
            then (0.8 : ℚ) else 0.6)) 20) := by
  norm_num [calculateIrrigationImpact, bundleZeroMoisture, jsOr, min_def]

/-- C5 amended: for every irrigation amount at least 0 and every bundle, the
yield boost is min(irrigation × 2 × efficiency, 20) where efficiency is 0.8
when the effective root-zone soil moisture (the reading, or 0.3 when the
reading is 0) is above 0.25 and 0.6 otherwise, and the water-efficiency
multiplier is 1.0 up to 5 mm/day and max(0.5, 1 − (irrigation − 5) × 0.1)
above. -/
theorem c5_amended_irrigation_impact (irr : ℚ) (n : NasaBundle) (h : 0 ≤ irr) :
    (calculateIrrigationImpact irr n).yieldBoost
      = min (irr * 2 * (if jsOr n.soilMoistureRootZone 0.3 > 0.25
          then (0.8 : ℚ) else 0.6)) 20
    ∧ (calculateIrrigationImpact irr n).waterEfficiency
      = (if irr ≤ 5 then 1 else max 0.5 (1 - (irr - 5) * 0.1)) := by
  simp only [calculateIrrigationImpact]
  constructor
  · split_ifs with h1 h2 h2
    · rfl
    · rfl
    · have : irr = 0 := le_antisymm (not_lt.mp h1) h
      subst this; norm_num
    · have : irr = 0 := le_antisymm (not_lt.mp h1) h
      subst this; norm_num
  · split_ifs with h1 h2 h2 <;> first | rfl | linarith

/-- C5 witness: the amended formulas at irrigation 3 on the fixed bundle. -/
theorem c5_amended_irrigation_impact_witness :
    (0 : ℚ) ≤ 3
    ∧ ((calculateIrrigationImpact 3 bundle0).yieldBoost
        = min (3 * 2 * (if jsOr bundle0.soilMoistureRootZone 0.3 > 0.25
            then (0.8 : ℚ) else 0.6)) 20
      ∧ (calculateIrrigationImpact 3 bundle0).waterEfficiency
        = (if (3 : ℚ) ≤ 5 then 1 else max 0.5 (1 - (3 - 5) * 0.1))) :=
  ⟨by norm_num, c5_amended_irrigation_impact 3 bundle0 (by norm_num)⟩

/-- C8: on Corn and Loam under the spec's fixed environmental bundle
(temperature 20, soil moisture 0.3, precipitation 15, ndvi 0.65), the base
yield before the irrigation, fertilizer and livestock adjustments is
100 × 1.0 × 1.1 = 110, and the simulation is reproducible: two runs on equal
inputs return equal results. -/
theorem c8_base_yield_110_and_reproducible :
    calculateBaseYield "Corn" "Loam" bundle0 = 110
    ∧ ∀ (c c' : PlayerChoices) (n n' : NasaBundle), c = c' → n = n' →
        runComprehensiveSimulation c n = runComprehensiveSimulation c' n' := by
  constructor
  · norm_num [calculateBaseYield, cropMultipliers, soilMultipliers, jsOrNum, bundle0]
  · rintro c c' n n' rfl rfl
    rfl

/-- C8 witness: reproducibility discharged at the spec's concrete input. -/
theorem c8_base_yield_110_and_reproducible_witness :
    calculateBaseYield "Corn" "Loam" bundle0 = 110
    ∧ runComprehensiveSimulation choicesHighYield bundle0
        = runComprehensiveSimulation choicesHighYield bundle0 :=
  ⟨c8_base_yield_110_and_reproducible.1,
   c8_base_yield_110_and_reproducible.2 choicesHighYield choicesHighYield bundle0 bundle0
     rfl rfl⟩

/-! Helper lemmas for the recommendation generator and the lookup tables. -/

lemma recs_water_iff (c : PlayerChoices) (n : NasaBundle) (s : ScoreSet) :
    (∃ r ∈ generateDetailedRecommendations c n s, r.category = "Water Management")
      ↔ s.waterEfficiencyScore < 70 := by
  unfold generateDetailedRecommendations
  split_ifs with h1 h2 h3 <;> simp_all

lemma recs_nutrient_iff (c : PlayerChoices) (n : NasaBundle) (s : ScoreSet) :
    (∃ r ∈ generateDetailedRecommendations c n s, r.category = "Nutrient Management")
      ↔ c.fertilizerKgPerHa > 20 := by
  unfold generateDetailedRecommendations
  split_ifs with h1 h2 h3 <;> simp_all

lemma recs_livestock_iff (c : PlayerChoices) (n : NasaBundle) (s : ScoreSet) :
    (∃ r ∈ generateDetailedRecommendations c n s, r.category = "Livestock Management")
      ↔ c.livestockDensityPerHa > 3 := by
  unfold generateDetailedRecommendations
  split_ifs with h1 h2 h3 <;> simp_all

/-- C6: the simulation's recommendation list contains a Water Management
record exactly when the computed water-efficiency score is below 70, a
Nutrient Management record exactly when fertilizer is above 20, and a
Livestock Management record exactly when livestock density is above 3; and
the generation is deterministic: equal inputs give equal insight and
recommendation lists. -/
theorem c6_recommendation_triggers (c : PlayerChoices) (n : NasaBundle) :
    ((∃ r ∈ (runComprehensiveSimulation c n).recommendations,
        r.category = "Water Management")
      ↔ calculateWaterEfficiencyScore c.irrigationMmPerDay n < 70)
    ∧ ((∃ r ∈ (runComprehensiveSimulation c n).recommendations,
        r.category = "Nutrient Management")
      ↔ c.fertilizerKgPerHa > 20)
    ∧ ((∃ r ∈ (runComprehensiveSimulation c n).recommendations,
        r.category = "Livestock Management")
      ↔ c.livestockDensityPerHa > 3)
    ∧ (∀ (c' : PlayerChoices) (n' : NasaBundle), c = c' → n = n' →
        (runComprehensiveSimulation c n).insights
            = (runComprehensiveSimulation c' n').insights
        ∧ (runComprehensiveSimulation c n).recommendations
            = (runComprehensiveSimulation c' n').recommendations) := by
  refine ⟨?_, ?_, ?_, ?_⟩
  · exact recs_water_iff c n _
  · exact recs_nutrient_iff c n _
  · exact recs_livestock_iff c n _
  · rintro c' n' rfl rfl
    exact ⟨rfl, rfl⟩

/-- C6 witness: the triggers and determinism at a concrete input. -/
theorem c6_recommendation_triggers_witness :
    ((∃ r ∈ (runComprehensiveSimulation choicesMid bundle0).recommendations,
        r.category = "Water Management")
      ↔ calculateWaterEfficiencyScore choicesMid.irrigationMmPerDay bundle0 < 70)
    ∧ ((runComprehensiveSimulation choicesMid bundle0).insights
          = (runComprehensiveSimulation choicesMid bundle0).insights
      ∧ (runComprehensiveSimulation choicesMid bundle0).recommendations
          = (runComprehensiveSimulation choicesMid bundle0).recommendations) :=
  ⟨(c6_recommendation_triggers choicesMid bundle0).1,
   (c6_recommendation_triggers choicesMid bundle0).2.2.2 choicesMid bundle0 rfl rfl⟩

lemma cropMultipliers_not_found {crop : String}
    (h : crop ∉ ["Corn", "Wheat", "Soybeans", "Rice"]) : cropMultipliers crop = none := by
  simp only [List.mem_cons, List.mem_singleton, not_or] at h
  obtain ⟨h1, h2, h3, h4⟩ := h
  simp [cropMultipliers, h1, h2, h3, h4]

lemma soilMultipliers_not_found {soil : String}
    (h : soil ∉ ["Loam", "Clay", "Sand", "Silt"]) : soilMultipliers soil = none := by
  simp only [List.mem_cons, List.mem_singleton, not_or] at h
  obtain ⟨h1, h2, h3, h4⟩ := h
  simp [soilMultipliers, h1, h2, h3, h4]

lemma soilNutrientRetention_not_found {soil : String}
    (h : soil ∉ ["Loam", "Clay", "Sand", "Silt"]) : soilNutrientRetention soil = none := by
  simp only [List.mem_cons, List.mem_singleton, not_or] at h
  obtain ⟨h1, h2, h3, h4⟩ := h
  simp [soilNutrientRetention, h1, h2, h3, h4]

lemma cropFactor_unknown {crop : String}
    (h : crop ∉ ["Corn", "Wheat", "Soybeans", "Rice"]) :
    jsOrNum (cropMultipliers (jsOrStr (some crop) "Corn")) 100 = 100 := by
  by_cases hce : crop = ""
  · subst hce; norm_num [jsOrStr, cropMultipliers, jsOrNum]
  · rw [show jsOrStr (some crop) "Corn" = crop from by simp [jsOrStr, hce],
      cropMultipliers_not_found h]
    rfl

lemma soilFactor_unknown {soil : String}
    (h : soil ∉ ["Loam", "Clay", "Sand", "Silt"]) :
    jsOrNum (soilMultipliers (jsOrStr (some soil) "Loam")) 1 = 1 := by
  by_cases hse : soil = ""
  · subst hse; norm_num [jsOrStr, soilMultipliers, jsOrNum]
  · rw [show jsOrStr (some soil) "Loam" = soil from by simp [jsOrStr, hse],
      soilMultipliers_not_found h]
    rfl

lemma retention_unknown {soil : String}
    (h : soil ∉ ["Loam", "Clay", "Sand", "Silt"]) :
    jsOrNum (soilNutrientRetention (jsOrStr (some soil) "Loam")) 0.8 = 0.8 := by
  by_cases hse : soil = ""
  · subst hse; norm_num [jsOrStr, soilNutrientRetention, jsOrNum]
  · rw [show jsOrStr (some soil) "Loam" = soil from by simp [jsOrStr, hse],
      soilNutrientRetention_not_found h]
    rfl

lemma toNum_jsOrProp_protoLookup (table : Option ℚ) (key : String) (d : ℚ)
    (hk : key ∉ objectPrototypeKeys) :
    (jsOrProp (protoLookup table key) d).toNum = JsNum.val (jsOrNum table d) := by
  cases table with
  | none => simp [protoLookup, jsOrProp, jsOrNum, JsValue.toNum, hk]
  | some v =>
    simp only [protoLookup, jsOrProp, jsOrNum]
    split_ifs <;> rfl

lemma calculateBaseYieldJs_agrees (crop soil : String) (n : NasaBundle)
    (hc : crop ∉ objectPrototypeKeys) (hs : soil ∉ objectPrototypeKeys) :
    calculateBaseYieldJs crop soil n = JsNum.val (calculateBaseYield crop soil n) := by
  simp only [calculateBaseYieldJs, calculateBaseYield, cropMultipliersJs, soilMultipliersJs]
  rw [toNum_jsOrProp_protoLookup _ _ _ hc, toNum_jsOrProp_protoLookup _ _ _ hs]
  rfl

/-- C10 counterexample: the prototype chain defeats the fallback. The read
cropMultipliers["toString"] hits the truthy inherited Object.prototype
function, so || 100 does not fire; the base yield for cropType "toString"
(with the unknown soil "Chalk") is NaN, not the Corn-on-Loam value 110, so
this non-enum string is not scored identically to Corn on Loam. -/
theorem c10_proto_key_not_defaulted :
    jsOrProp (cropMultipliersJs "toString") 100 = JsValue.fn
    ∧ calculateBaseYieldJs "toString" "Chalk" bundle0 = JsNum.nan
    ∧ calculateBaseYieldJs "Corn" "Loam" bundle0 = JsNum.val 110
    ∧ calculateBaseYieldJs "toString" "Chalk" bundle0
        ≠ calculateBaseYieldJs "Corn" "Loam" bundle0 := by
  refine ⟨?_, ?_, ?_, ?_⟩
  · simp [cropMultipliersJs, protoLookup, cropMultipliers, objectPrototypeKeys, jsOrProp]
  · simp [calculateBaseYieldJs, cropMultipliersJs, soilMultipliersJs, protoLookup,
      cropMultipliers, soilMultipliers, objectPrototypeKeys, jsOrProp, JsValue.toNum,
      JsNum.mul, bundle0]
  · norm_num [calculateBaseYieldJs, cropMultipliersJs, soilMultipliersJs, protoLookup,
      cropMultipliers, soilMultipliers, jsOrProp, JsValue.toNum, JsNum.mul, bundle0]
  · simp [calculateBaseYieldJs, cropMultipliersJs, soilMultipliersJs, protoLookup,
      cropMultipliers, soilMultipliers, objectPrototypeKeys, jsOrProp, JsValue.toNum,
      JsNum.mul, bundle0]

/-- C10 amended: for every cropType string outside the crop enum that is not
an Object.prototype member name, and every soilType string likewise, the
object reads are undefined so the fallbacks fire — crop multiplier 100, soil
factor 1.0, fertilizer nutrient retention 0.8 — the prototype-aware base
yield agrees with the Corn-on-Loam base yield, and the whole simulation
result equals the Corn-on-Loam result. (Object.prototype member names such
as toString escape the fallback and poison the scores to NaN instead.) -/
theorem c10_amended_unknown_crop_soil_defaults (crop soil : String)
    (hcrop : crop ∉ ["Corn", "Wheat", "Soybeans", "Rice"])
    (hsoil : soil ∉ ["Loam", "Clay", "Sand", "Silt"])
    (hcp : crop ∉ objectPrototypeKeys)
    (hsp : soil ∉ objectPrototypeKeys)
    (p : PlayerChoices) (n : NasaBundle) :
    jsOrProp (cropMultipliersJs crop) 100 = JsValue.num 100
    ∧ jsOrProp (soilMultipliersJs soil) 1 = JsValue.num 1
    ∧ jsOrProp (soilNutrientRetentionJs soil) 0.8 = JsValue.num 0.8
    ∧ calculateBaseYieldJs crop soil n = JsNum.val (calculateBaseYield "Corn" "Loam" n)
    ∧ runComprehensiveSimulation { p with cropType := some crop, soilType := some soil } n
        = runComprehensiveSimulation { p with cropType := some "Corn", soilType := some "Loam" } n := by
  refine ⟨?_, ?_, ?_, ?_, ?_⟩
  · simp [cropMultipliersJs, protoLookup, cropMultipliers_not_found hcrop, hcp, jsOrProp]
  · simp [soilMultipliersJs, protoLookup, soilMultipliers_not_found hsoil, hsp, jsOrProp]
  · simp [soilNutrientRetentionJs, protoLookup, soilNutrientRetention_not_found hsoil,
      hsp, jsOrProp]
  · rw [calculateBaseYieldJs_agrees crop soil n hcp hsp]
    have e : calculateBaseYield crop soil n = calculateBaseYield "Corn" "Loam" n := by
      simp only [calculateBaseYield]
      rw [cropMultipliers_not_found hcrop, soilMultipliers_not_found hsoil]
      norm_num [cropMultipliers, soilMultipliers, jsOrNum]
    rw [e]
  · have hbase : calculateBaseYield (jsOrStr (some crop) "Corn") (jsOrStr (some soil) "Loam") n
        = calculateBaseYield (jsOrStr (some "Corn") "Corn") (jsOrStr (some "Loam") "Loam") n := by
      simp only [calculateBaseYield]
      rw [cropFactor_unknown hcrop, soilFactor_unknown hsoil]
      norm_num [jsOrStr, cropMultipliers, soilMultipliers, jsOrNum]
    have hfert : calculateFertilizerImpact p.fertilizerKgPerHa (jsOrStr (some soil) "Loam")
        = calculateFertilizerImpact p.fertilizerKgPerHa (jsOrStr (some "Loam") "Loam") := by
      simp only [calculateFertilizerImpact]
      rw [retention_unknown hsoil]
      norm_num [jsOrStr, soilNutrientRetention, jsOrNum]
    simp only [runComprehensiveSimulation]
    rw [hbase, hfert]
    rfl

/-- C10 witness: a concrete unknown crop and soil, neither an enum key nor
an Object.prototype member name. -/
theorem c10_amended_unknown_crop_soil_defaults_witness :
    ("Banana" ∉ ["Corn", "Wheat", "Soybeans", "Rice"]
      ∧ "Chalk" ∉ ["Loam", "Clay", "Sand", "Silt"]
      ∧ "Banana" ∉ objectPrototypeKeys
      ∧ "Chalk" ∉ objectPrototypeKeys)
    ∧ (jsOrProp (cropMultipliersJs "Banana") 100 = JsValue.num 100
      ∧ jsOrProp (soilMultipliersJs "Chalk") 1 = JsValue.num 1
      ∧ jsOrProp (soilNutrientRetentionJs "Chalk") 0.8 = JsValue.num 0.8
      ∧ calculateBaseYieldJs "Banana" "Chalk" bundle0
          = JsNum.val (calculateBaseYield "Corn" "Loam" bundle0)
      ∧ runComprehensiveSimulation
            { choicesMid with cropType := some "Banana", soilType := some "Chalk" } bundle0
          = runComprehensiveSimulation
            { choicesMid with cropType := some "Corn", soilType := some "Loam" } bundle0) :=
  ⟨⟨by simp, by simp, by simp [objectPrototypeKeys], by simp [objectPrototypeKeys]⟩,
   c10_amended_unknown_crop_soil_defaults "Banana" "Chalk" (by simp) (by simp)
     (by simp [objectPrototypeKeys]) (by simp [objectPrototypeKeys]) choicesMid bundle0⟩
